import Mathlib

/-
Shallow embedding of the quote acquisition and aggregation engine of the
repository (src/slack_agent.py and src/agent_app.py), together with proofs
about it.

Modelling conventions:
 - Python floats are modelled as rationals (ℚ); the numeric values involved
   (daily closes, differences, percentages) are exact decimals and no claim
   here depends on binary rounding.
 - An HTTP response is `Except String (List Row)`: `.error e` is a transport
   or HTTP-status failure (requests raising an exception), `.ok rows` is the
   daily table obtained from csv.DictReader over the body, where each `Row`
   carries the Date field and the Close field (`none` when the Close column
   is absent for that row, i.e. csv.DictReader's restval).
 - Python exceptions that escape a function are modelled with `Except PyExn`.
 - Python's stable list.sort / sorted is modelled with List.insertionSort,
   a stable sort, on the same key.
-/

/-- One row of the parsed Stooq daily CSV: the Date value and the Close value
(`none` models a missing Close field). -/
structure Row where
  date : String
  close : Option String
deriving DecidableEq, Repr

instance : Inhabited Row := ⟨⟨"", none⟩⟩

/-- Models Python's "sep".join(lines). -/
def joinWith (sep : String) : List String → String
  | [] => ""
  | [a] => a
  | a :: b :: rest => a ++ sep ++ joinWith sep (b :: rest)

/-- Numeric value of a list of decimal digit characters. -/
def natOfDigits (cs : List Char) : Nat :=
  cs.foldl (fun n c => 10 * n + (c.toNat - 48)) 0

/-- Unsigned part of Python float() on a plain decimal numeral: digits with
an optional decimal point, at least one digit present. -/
def parseUnsigned (cs : List Char) : Option ℚ :=
  let intPart := cs.takeWhile Char.isDigit
  let rest := cs.dropWhile Char.isDigit
  match rest with
  | [] => if intPart.isEmpty then none else some (natOfDigits intPart : ℚ)
  | '.' :: frac =>
      if frac.all Char.isDigit && !(intPart.isEmpty && frac.isEmpty) then
        some ((natOfDigits intPart : ℚ) + (natOfDigits frac : ℚ) / ((10 : ℚ) ^ frac.length))
      else none
  | _ => none

/-- Models Python float() on the plain decimal numerals that a daily Close
column carries (optional sign, digits, optional decimal point); `none`
models a ValueError. -/
def parseFloat (s : String) : Option ℚ :=
  match s.toList with
  | '-' :: rest => (parseUnsigned rest).map fun q => -q
  | '+' :: rest => parseUnsigned rest
  | cs => parseUnsigned cs

/-- Models the %.2f format directive on the rational values arising here:
two digits after the decimal point, sign taken from the number. -/
def fmt2 (q : ℚ) : String :=
  let n : ℤ := round (|q| * 100)
  let ip := n / 100
  let fp := (n % 100).toNat
  (if q < 0 then "-" else "") ++ toString ip ++ "." ++
    (if fp < 10 then "0" ++ toString fp else toString fp)

/-- Lexicographic comparison of character lists by code point (Python's
string comparison). -/
def charsLe : List Char → List Char → Bool
  | [], _ => true
  | _ :: _, [] => false
  | a :: as, b :: bs =>
      if a < b then true
      else if b < a then false
      else charsLe as bs

/-- Python's s <= t on strings: lexicographic by code point. -/
def strLe (s t : String) : Bool := charsLe s.toList t.toList

/-- Sort key relation of rows.sort(key=lambda r: r["Date"]). -/
def dateLe (a b : Row) : Prop := strLe a.date b.date = true

instance : DecidableRel dateLe := fun a b => inferInstanceAs (Decidable (strLe a.date b.date = true))

/-- Models rows.sort(key=lambda r: r["Date"]): a stable ascending sort on the
Date field. -/
def sortRows (rows : List Row) : List Row := List.insertionSort dateLe rows

/-- rows[-1] of a list known to have at least one element. -/
def latestRow (l : List Row) : Row := l.getD (l.length - 1) default

/-- rows[-2] of a list known to have at least two elements. -/
def prevRow (l : List Row) : Row := l.getD (l.length - 2) default

/-- Converts a count of days since 1970-01-01 to (year, month, day) in the
proleptic Gregorian calendar (the civil-from-days algorithm used by calendar
libraries). -/
def civilFromDays (z0 : Nat) : Nat × Nat × Nat :=
  let z := z0 + 719468
  let era := z / 146097
  let doe := z % 146097
  let yoe := (doe - doe / 1460 + doe / 36524 - doe / 146096) / 365
  let y := yoe + era * 400
  let doy := doe - (365 * yoe + yoe / 4 - yoe / 100)
  let mp := (5 * doy + 2) / 153
  let d := doy - (153 * mp + 2) / 5 + 1
  let m := if mp < 10 then mp + 3 else mp - 9
  (if m ≤ 2 then y + 1 else y, m, d)

/-- Two-digit zero-padded numeral. -/
def pad2 (n : Nat) : String := if n < 10 then "0" ++ toString n else toString n

/-- Models strftime "%Y-%m-%d %H:%M:%S" applied to an instant given as
seconds since the Unix epoch (the shape `jst:%Y-%m-%d %H:%M:%S` takes in both
source files). -/
def format_jst (t : Nat) : String :=
  let ymd := civilFromDays (t / 86400)
  let secs := t % 86400
  toString ymd.1 ++ "-" ++ pad2 ymd.2.1 ++ "-" ++ pad2 ymd.2.2 ++ " " ++
    pad2 (secs / 3600) ++ ":" ++ pad2 (secs % 3600 / 60) ++ ":" ++ pad2 (secs % 60)

namespace SlackAgent

/-- Result dict of a successful slack_agent.fetch_from_stooq. -/
structure Quote where
  price : ℚ
  prev_close : ℚ
  change : ℚ
  change_pct : ℚ
deriving DecidableEq, Repr

/-- Models the row filter of slack_agent.fetch_from_stooq:
row.get("Close") not in ("", "0", "0.00", None). -/
def keepRow (r : Row) : Bool :=
  match r.close with
  | none => false
  | some s => !(s == "" || s == "0" || s == "0.00")

/-- Delta computation from the two most recent rows of the date-sorted series:
the float() conversions (a failed parse models the caught ValueError), the
zero previous-close guard, and the change/percentage arithmetic. -/
def lastTwoQuote (sorted : List Row) : Option Quote :=
  match parseFloat ((latestRow sorted).close.getD ""),
        parseFloat ((prevRow sorted).close.getD "") with
  | some price, some prev_close =>
      if prev_close = 0 then none
      else some ⟨price, prev_close, price - prev_close,
        (price - prev_close) / prev_close * 100⟩
  | _, _ => none

/-- Body of slack_agent.fetch_from_stooq after the row filter: the
"fewer than 2 valid rows" guard, then sort by Date and take the last two. -/
def quoteOfRows (rows : List Row) : Option Quote :=
  if rows.length < 2 then none
  else lastTwoQuote (sortRows rows)

/-- Embedding of slack_agent.fetch_from_stooq, as a function of the HTTP
response.  A transport or HTTP-status error is caught and yields None; a body
with at most one line (`.ok []`) yields None; otherwise the rows are
filtered, counted, sorted, and the delta computed. -/
def fetch_from_stooq (resp : Except String (List Row)) : Option Quote :=
  match resp with
  | .error _ => none
  | .ok allRows =>
      if allRows.isEmpty then none
      else quoteOfRows (allRows.filter keepRow)

/-- Per-symbol line of build_index_section / build_gold_section on success. -/
def successLine (label : String) (q : Quote) : String :=
  let sign := if q.change ≥ 0 then "+" else ""
  "- " ++ label ++ ": " ++ fmt2 q.price ++ " (" ++ sign ++ fmt2 q.change ++
    ", " ++ sign ++ fmt2 q.change_pct ++ "%)"

/-- Per-symbol line on failure. -/
def unavailableLine (label : String) : String := "- " ++ label ++ ": データ取得失敗"

/-- Per-symbol line of build_index_section and build_gold_section (the two
loops in the source render a symbol identically). -/
def quoteLine (respOf : String → Except String (List Row)) (p : String × String) : String :=
  match fetch_from_stooq (respOf p.1) with
  | some q => successLine p.2 q
  | none => unavailableLine p.2

/-- Lines of build_index_section, one per configured index symbol. -/
def index_lines (respOf : String → Except String (List Row))
    (idx : List (String × String)) : List String :=
  idx.map (quoteLine respOf)

/-- Embedding of slack_agent.build_index_section. -/
def build_index_section (respOf : String → Except String (List Row))
    (idx : List (String × String)) : String :=
  joinWith "\n" (index_lines respOf idx)

/-- Result entry collected by build_stock_rankings for one successful
tracked-symbol fetch. -/
structure StockEntry where
  symbol : String
  name : String
  price : ℚ
  change_pct : ℚ
deriving DecidableEq, Repr

/-- Successful results of the tracked group, in registry order (failed
fetches are skipped with continue). -/
def stock_results (respOf : String → Except String (List Row))
    (stocks : List (String × String)) : List StockEntry :=
  stocks.filterMap fun p =>
    (fetch_from_stooq (respOf p.1)).map fun q => ⟨p.1, p.2, q.price, q.change_pct⟩

/-- Key relation of sorted(results, key=lambda x: x["change_pct"], reverse=True). -/
def pctDesc (a b : StockEntry) : Prop := b.change_pct ≤ a.change_pct

/-- Key relation of sorted(..., key=lambda x: x["change_pct"]). -/
def pctAsc (a b : StockEntry) : Prop := a.change_pct ≤ b.change_pct

instance : DecidableRel pctDesc := fun a b => inferInstanceAs (Decidable (b.change_pct ≤ a.change_pct))

instance : DecidableRel pctAsc := fun a b => inferInstanceAs (Decidable (a.change_pct ≤ b.change_pct))

instance : IsTotal StockEntry pctDesc := ⟨fun a b => le_total b.change_pct a.change_pct⟩

instance : IsTotal StockEntry pctAsc := ⟨fun a b => le_total a.change_pct b.change_pct⟩

instance : IsTrans StockEntry pctDesc := ⟨fun _ _ _ h1 h2 => le_trans h2 h1⟩

instance : IsTrans StockEntry pctAsc := ⟨fun _ _ _ h1 h2 => le_trans h1 h2⟩

/-- sorted_by of build_stock_rankings: all successful entries, change_pct
descending (stable). -/
def sorted_by (res : List StockEntry) : List StockEntry :=
  List.insertionSort pctDesc res

/-- gainers = sorted_by[:3]. -/
def gainers (res : List StockEntry) : List StockEntry :=
  (sorted_by res).take 3

/-- losers = sorted(sorted_by[-3:], key=lambda x: x["change_pct"]); Python's
l[-3:] is the last min(3, len) elements, i.e. drop (length - 3). -/
def losers (res : List StockEntry) : List StockEntry :=
  List.insertionSort pctAsc ((sorted_by res).drop ((sorted_by res).length - 3))

/-- fmt of build_stock_rankings. -/
def rankLine (e : StockEntry) : String :=
  let sign := if e.change_pct ≥ 0 then "+" else ""
  e.name ++ " (" ++ sign ++ fmt2 e.change_pct ++ "%)"

/-- up tally: entries with change_pct > 0. -/
def sentiment_up (res : List StockEntry) : Nat :=
  res.countP fun r => decide (0 < r.change_pct)

/-- down tally: entries with change_pct < 0. -/
def sentiment_down (res : List StockEntry) : Nat :=
  res.countP fun r => decide (r.change_pct < 0)

/-- flat tally, computed in the source as len(results) - up - down. -/
def sentiment_flat (res : List StockEntry) : Nat :=
  res.length - sentiment_up res - sentiment_down res

/-- Body of build_stock_rankings when at least one entry succeeded. -/
def rankings_text (results : List StockEntry) : String :=
  joinWith "\n" (
    ["■ 値上がり率 上位（指定銘柄）"] ++
    (gainers results).map (fun e => "- " ++ rankLine e) ++
    ["■ 値下がり率 上位（指定銘柄）"] ++
    (losers results).map (fun e => "- " ++ rankLine e) ++
    ["■ 地合い（指定銘柄ベース）: 上昇 " ++ toString (sentiment_up results) ++
      ", 下落 " ++ toString (sentiment_down results) ++
      ", 横ばい " ++ toString (sentiment_flat results)])

/-- Embedding of slack_agent.build_stock_rankings. -/
def build_stock_rankings (respOf : String → Except String (List Row))
    (stocks : List (String × String)) : String :=
  if (stock_results respOf stocks).isEmpty then "■ 指定銘柄: データ取得に失敗しました。"
  else rankings_text (stock_results respOf stocks)

/-- Embedding of slack_agent.build_gold_section: empty string when the gold
group is empty, else a section header followed by one line per symbol. -/
def build_gold_section (respOf : String → Except String (List Row))
    (golds : List (String × String)) : String :=
  if golds.isEmpty then ""
  else joinWith "\n" ("■ 金価格など" :: golds.map (quoteLine respOf))

/-- Snapshot header line: the current UTC instant plus 9 hours, formatted. -/
def snapshot_header (nowUtc : Nat) : String :=
  "日本株マーケットスナップショット (JST " ++ format_jst (nowUtc + 9 * 3600) ++ ")"

/-- Ordered part list of build_market_snapshot_text: the gold section is
appended exactly when it rendered as a non-empty string. -/
def snapshot_parts (nowUtc : Nat) (respOf : String → Except String (List Row))
    (idx stocks golds : List (String × String)) : List String :=
  if build_gold_section respOf golds = "" then
    [snapshot_header nowUtc, "■ 主要指数", build_index_section respOf idx,
      build_stock_rankings respOf stocks]
  else
    [snapshot_header nowUtc, "■ 主要指数", build_index_section respOf idx,
      build_stock_rankings respOf stocks] ++ [build_gold_section respOf golds]

/-- Embedding of slack_agent.build_market_snapshot_text, as a function of the
current UTC time in seconds and of the per-symbol HTTP response. -/
def build_market_snapshot_text (nowUtc : Nat)
    (respOf : String → Except String (List Row))
    (idx stocks golds : List (String × String)) : String :=
  joinWith "\n\n" (snapshot_parts nowUtc respOf idx stocks golds)

end SlackAgent

namespace AgentApp

/-- Python exception escaping a function of agent_app.py: the uncaught
requests error (raise_for_status / transport) or the uncaught ValueError of
float(). -/
inductive PyExn where
  | httpError (msg : String)
  | valueError
deriving DecidableEq, Repr

/-- Result dict of a successful agent_app.fetch_from_stooq. -/
structure QuoteA where
  price : ℚ
  change : ℚ
  change_pct : ℚ
  date : String
deriving DecidableEq, Repr

/-- Models the row filter of agent_app.fetch_from_stooq, a plain truthiness
test x.get("Close"): the Close field present and a non-empty string. -/
def truthyClose (r : Row) : Bool :=
  match r.close with
  | none => false
  | some s => !(s == "")

/-- Delta computation of agent_app.fetch_from_stooq from the two most recent
rows: float() raises (uncaught) on a non-numeric close, and a zero previous
close yields change_pct computed as 0.0 by the conditional expression. -/
def lastTwoQuote (sorted : List Row) : Except PyExn (Option QuoteA) :=
  match parseFloat ((latestRow sorted).close.getD ""),
        parseFloat ((prevRow sorted).close.getD "") with
  | some price, some prev_c =>
      .ok (some ⟨price, price - prev_c,
        if prev_c = 0 then 0 else (price - prev_c) / prev_c * 100,
        (latestRow sorted).date⟩)
  | _, _ => .error .valueError

/-- Embedding of agent_app.fetch_from_stooq.  The requests.get call and
raise_for_status are not wrapped in try/except, so a transport or HTTP-status
failure escapes as an exception; fewer than 2 truthy-Close rows returns
None. -/
def fetch_from_stooq (resp : Except String (List Row)) : Except PyExn (Option QuoteA) :=
  match resp with
  | .error e => .error (.httpError e)
  | .ok allRows =>
      if (allRows.filter truthyClose).length < 2 then .ok none
      else lastTwoQuote (sortRows (allRows.filter truthyClose))

/-- Per-symbol line of agent_app's fmt_lines. -/
def quoteLine (label : String) (q : Option QuoteA) : String :=
  match q with
  | some q =>
      let sign := if q.change ≥ 0 then "+" else ""
      "- " ++ label ++ ": " ++ fmt2 q.price ++ " (" ++ sign ++ fmt2 q.change ++
        ", " ++ sign ++ fmt2 q.change_pct ++ "%)"
  | none => "- " ++ label ++ ": データ取得失敗"

/-- Embedding of agent_app's fmt_lines: one fetch per symbol, each line
appended in order; a fetch exception escapes the loop. -/
def fmt_lines (respOf : String → Except String (List Row))
    (syms : List (String × String)) : Except PyExn String := do
  let lines ← syms.mapM fun p => do
    let q ← fetch_from_stooq (respOf p.1)
    pure (quoteLine p.2 q)
  pure (joinWith "\n" lines)

/-- Ranking entry of agent_app's stock_rankings. -/
structure RankEntry where
  name : String
  pct : ℚ
deriving DecidableEq, Repr

/-- Key relation of res.sort(key=lambda x: x["pct"], reverse=True). -/
def rankDesc (a b : RankEntry) : Prop := b.pct ≤ a.pct

/-- Key relation of sorted(res[-3:], key=lambda x: x["pct"]). -/
def rankAsc (a b : RankEntry) : Prop := a.pct ≤ b.pct

instance : DecidableRel rankDesc := fun a b => inferInstanceAs (Decidable (b.pct ≤ a.pct))

instance : DecidableRel rankAsc := fun a b => inferInstanceAs (Decidable (a.pct ≤ b.pct))

/-- fmt of agent_app's stock_rankings. -/
def rankLine (e : RankEntry) : String :=
  (e.name ++ " (" ++ (if e.pct ≥ 0 then "+" else "") ++ fmt2 e.pct ++ "%)")

/-- Embedding of agent_app's stock_rankings (nested in
build_market_snapshot_text): collect successes, all-failed sentinel, top-3 /
bottom-3 by pct, up/down/flat tally; a fetch exception escapes. -/
def stock_rankings (respOf : String → Except String (List Row))
    (stocks : List (String × String)) : Except PyExn String := do
  let pairs ← stocks.mapM fun p => do
    let q ← fetch_from_stooq (respOf p.1)
    pure (p.2, q)
  let res := pairs.filterMap fun pq => pq.2.map fun q => RankEntry.mk pq.1 q.change_pct
  if res.isEmpty then pure "■ 指定銘柄: データ取得に失敗しました。"
  else
    let sortedRes := List.insertionSort rankDesc res
    let ups := sortedRes.take 3
    let downs := List.insertionSort rankAsc (sortedRes.drop (sortedRes.length - 3))
    let up := res.countP fun r => decide (0 < r.pct)
    let down := res.countP fun r => decide (r.pct < 0)
    let flat := res.length - up - down
    pure (joinWith "\n" (
      ["■ 値上がり率 上位（指定銘柄）"] ++ ups.map (fun e => "- " ++ rankLine e) ++
      ["■ 値下がり率 上位（指定銘柄）"] ++ downs.map (fun e => "- " ++ rankLine e) ++
      ["■ 地合い（指定銘柄ベース）: 上昇 " ++ toString up ++ ", 下落 " ++ toString down ++
        ", 横ばい " ++ toString flat]))

/-- Embedding of agent_app.build_market_snapshot_text: header, index lines,
stock rankings, and (when the gold group is non-empty) a gold header part and
gold lines, joined with a double line break; any fetch exception escapes. -/
def build_market_snapshot_text (nowUtc : Nat)
    (respOf : String → Except String (List Row))
    (idx stocks golds : List (String × String)) : Except PyExn String := do
  let head := "日本株マーケットスナップショット (JST " ++ format_jst (nowUtc + 9 * 3600) ++ ")"
  let idxSec ← fmt_lines respOf idx
  let rank ← stock_rankings respOf stocks
  if golds.isEmpty then
    pure (joinWith "\n\n" [head, "■ 主要指数", idxSec, rank])
  else do
    let g ← fmt_lines respOf golds
    pure (joinWith "\n\n" ([head, "■ 主要指数", idxSec, rank] ++ ["■ 金価格など", g]))

/-- Module-level index table of agent_app.py. -/
def INDEX_SYMBOLS : List (String × String) := [("^NKX", "日経平均"), ("^TPX", "TOPIX")]

/-- Module-level tracked-stock table of agent_app.py. -/
def STOCK_SYMBOLS : List (String × String) :=
  [("7203.JP", "トヨタ自動車"), ("6758.JP", "ソニーG"), ("9984.JP", "ソフトバンクG")]

/-- Module-level gold table of agent_app.py. -/
def GOLD_SYMBOLS : List (String × String) := [("XAUUSD", "金(USD)"), ("XAUJPY", "金(JPY)")]

end AgentApp

/-- The source client viewed under a per-attempt response model: both source
files issue exactly one requests.get per fetch, with no retry loop, so the
single request observes attempt 0 of the behaviour. -/
def fetch_attempts (responses : Nat → Except String (List Row)) : Option SlackAgent.Quote :=
  SlackAgent.fetch_from_stooq (responses 0)

/-- Retry policy stated by the specification (up to 2 additional attempts on
transport or HTTP-status failure, Failure only after exhausting them),
written out only to be compared with the source client; the source contains
no retry. -/
def fetch_with_retry_spec (responses : Nat → Except String (List Row)) :
    Option SlackAgent.Quote :=
  match responses 0 with
  | .ok rows => SlackAgent.fetch_from_stooq (.ok rows)
  | .error _ =>
      match responses 1 with
      | .ok rows => SlackAgent.fetch_from_stooq (.ok rows)
      | .error _ =>
          match responses 2 with
          | .ok rows => SlackAgent.fetch_from_stooq (.ok rows)
          | .error _ => none

/-- The two-row daily series used as the concrete witness series:
2024-01-01 close 100, 2024-01-02 close 110, already sorted. -/
def goodRows : List Row := [⟨"2024-01-01", some "100"⟩, ⟨"2024-01-02", some "110"⟩]

/-- A per-attempt behaviour whose first attempt fails with a transport error
and whose later attempts would succeed with the good series. -/
def retryResponses : Nat → Except String (List Row) :=
  fun n => if n = 0 then .error "timeout" else .ok goodRows

/-- Concrete Tracked successes used as the C6 witness: change_pct values
+5, -3 and 0. -/
def sampleEntries : List SlackAgent.StockEntry :=
  [⟨"7203.JP", "トヨタ自動車", 1, 5⟩, ⟨"6758.JP", "ソニーグループ", 1, -3⟩,
    ⟨"9984.JP", "ソフトバンクG", 1, 0⟩]

/-- The three sign classes of change_pct partition the successful entries:
up + down + (count of zero entries) equals the total count. -/
lemma sentiment_partition (res : List SlackAgent.StockEntry) :
    SlackAgent.sentiment_up res + SlackAgent.sentiment_down res +
      res.countP (fun r => decide (r.change_pct = 0)) = res.length := by
  induction res with
  | nil => rfl
  | cons r l ih =>
    unfold SlackAgent.sentiment_up SlackAgent.sentiment_down at *
    rw [List.countP_cons, List.countP_cons, List.countP_cons, List.length_cons]
    simp only [decide_eq_true_eq]
    rcases lt_trichotomy r.change_pct 0 with h | h | h
    · rw [if_neg (asymm h), if_pos h, if_neg (ne_of_lt h)]
      omega
    · rw [if_neg (by rw [h]; exact lt_irrefl 0), if_neg (by rw [h]; exact lt_irrefl 0), if_pos h]
      omega
    · rw [if_pos h, if_neg (asymm h), if_neg (ne_of_gt h)]
      omega

/-- C7: the sentiment tally counts each successful Tracked entry exactly once
by the sign of change_pct; up + down + flat equals the number of successful
entries, and flat — computed in the source as a remainder — coincides with
the count of entries whose change_pct is exactly zero, the three classes
being mutually exclusive and exhaustive. -/
theorem C7_sentiment_tally (res : List SlackAgent.StockEntry) :
    SlackAgent.sentiment_up res + SlackAgent.sentiment_down res +
        SlackAgent.sentiment_flat res = res.length ∧
    SlackAgent.sentiment_flat res = res.countP (fun r => decide (r.change_pct = 0)) := by
  have h := sentiment_partition res
  unfold SlackAgent.sentiment_flat
  omega

/-- C10: the row filter of slack_agent's fetch keeps no row whose Close field
is missing, empty, the literal "0", or the literal "0.00"; consequently a
two-row series whose earlier close is written "0" fails as insufficient rows
(one valid row), never reaching the zero-previous-close branch. -/
theorem C10_filter_drops_zero_strings (rows : List Row) :
    ((rows.filter SlackAgent.keepRow).all fun r =>
      !(r.close == none || r.close == some "" || r.close == some "0" ||
        r.close == some "0.00")) = true ∧
    SlackAgent.fetch_from_stooq
      (.ok [⟨"2024-01-01", some "0"⟩, ⟨"2024-01-02", some "100"⟩]) = none := by
  refine ⟨?_, by decide⟩
  rw [List.all_eq_true]
  intro r hr
  have hk : SlackAgent.keepRow r = true := List.of_mem_filter hr
  unfold SlackAgent.keepRow at hk
  cases hc : r.close with
  | none => rw [hc] at hk; cases hk
  | some s =>
      rw [hc] at hk
      simp only [Bool.not_eq_true'] at hk
      simp only [hc, Bool.not_eq_true']
      simp only [beq_eq_false_iff_ne, ne_eq, Bool.or_eq_false_iff] at hk ⊢
      refine ⟨⟨⟨by simp, by simpa using hk.1.1⟩, by simpa using hk.1.2⟩, by simpa using hk.2⟩

/-- C8: when every Tracked symbol's fetch fails, slack_agent's Tracked
section is exactly the all-failed sentinel string — no gainer, loser or
sentiment line is rendered. -/
theorem C8_all_failed_sentinel (respOf : String → Except String (List Row))
    (stocks : List (String × String))
    (hall : ∀ p ∈ stocks, SlackAgent.fetch_from_stooq (respOf p.1) = none) :
    SlackAgent.build_stock_rankings respOf stocks = "■ 指定銘柄: データ取得に失敗しました。" := by
  have hres : SlackAgent.stock_results respOf stocks = [] := by
    unfold SlackAgent.stock_results
    exact List.filterMap_eq_nil_iff.mpr fun p hp => by rw [hall p hp]; rfl
  unfold SlackAgent.build_stock_rankings
  rw [hres]
  rfl

/-- Witness for C8 at a concrete registry and a failing transport. -/
theorem C8_all_failed_sentinel_witness :
    (∀ p ∈ [("7203.JP", "トヨタ自動車")],
      SlackAgent.fetch_from_stooq
        ((fun _ : String => (Except.error "down" : Except String (List Row))) p.1) = none) ∧
    SlackAgent.build_stock_rankings (fun _ => Except.error "down")
      [("7203.JP", "トヨタ自動車")] = "■ 指定銘柄: データ取得に失敗しました。" :=
  ⟨fun p _ => rfl, C8_all_failed_sentinel _ _ fun p _ => rfl⟩

/-- C2 counterexample: under a behaviour whose first attempt fails and whose
second attempt would deliver a good series, the source client returns a
Failure while the retry policy stated by the claim would return the quote —
the code performs no retry. -/
theorem C2_counterexample_no_retry :
    fetch_attempts retryResponses = none ∧
    fetch_with_retry_spec retryResponses = some ⟨110, 100, 10, 10⟩ := by
  constructor
  · rfl
  · have h : fetch_with_retry_spec retryResponses
        = some ⟨((110 : ℕ) : ℚ), ((100 : ℕ) : ℚ), ((110 : ℕ) : ℚ) - ((100 : ℕ) : ℚ),
            (((110 : ℕ) : ℚ) - ((100 : ℕ) : ℚ)) / ((100 : ℕ) : ℚ) * 100⟩ := rfl
    rw [h]
    simp only [Option.some.injEq, SlackAgent.Quote.mk.injEq]
    norm_num

/-- C2 as amended: the client issues a single request per fetch; a transport
or HTTP-status failure on that sole attempt immediately yields the Failure
outcome in slack_agent, and an uncaught exception in agent_app. -/
theorem C2_single_attempt_transport_failure
    (responses : Nat → Except String (List Row)) (e : String)
    (h : responses 0 = .error e) :
    fetch_attempts responses = none ∧
    AgentApp.fetch_from_stooq (responses 0) = .error (.httpError e) := by
  unfold fetch_attempts
  rw [h]
  exact ⟨rfl, rfl⟩

/-- The isEmpty guard of slack_agent's fetch (a body with at most one line)
is subsumed by the two-valid-rows guard: the fetch on a parsed body equals
the filtered-rows computation. -/
lemma fetch_ok_eq (rows : List Row) :
    SlackAgent.fetch_from_stooq (Except.ok rows) =
      SlackAgent.quoteOfRows (rows.filter SlackAgent.keepRow) := by
  cases rows with
  | nil => rfl
  | cons a l =>
      simp only [SlackAgent.fetch_from_stooq]
      rw [if_neg (by simp)]

/-- Totality of the code-point lexicographic comparison. -/
lemma charsLe_total (as : List Char) : ∀ bs, charsLe as bs = true ∨ charsLe bs as = true := by
  induction as with
  | nil => intro bs; left; rfl
  | cons a as ih =>
      intro bs
      cases bs with
      | nil => right; rfl
      | cons b bs =>
          rcases lt_trichotomy a b with h | h | h
          · left
            unfold charsLe
            rw [if_pos h]
          · subst h
            rcases ih bs with h2 | h2
            · left
              unfold charsLe
              rw [if_neg (lt_irrefl a), if_neg (lt_irrefl a)]
              exact h2
            · right
              unfold charsLe
              rw [if_neg (lt_irrefl a), if_neg (lt_irrefl a)]
              exact h2
          · right
            unfold charsLe
            rw [if_pos h]

/-- Totality of the string comparison. -/
lemma strLe_total (s t : String) : strLe s t = true ∨ strLe t s = true :=
  charsLe_total _ _

/-- Sorting an already date-ascending pair is the identity. -/
lemma sortRows_pair (r1 r2 : Row) (h : strLe r1.date r2.date = true) :
    sortRows [r1, r2] = [r1, r2] := by
  show List.orderedInsert dateLe r1 (List.orderedInsert dateLe r2 []) = [r1, r2]
  simp only [List.orderedInsert]
  exact if_pos h

/-- Sorting a strictly date-descending pair swaps it. -/
lemma sortRows_pair_swap (r1 r2 : Row) (h : strLe r2.date r1.date = false) :
    sortRows [r2, r1] = [r1, r2] := by
  show List.orderedInsert dateLe r2 (List.orderedInsert dateLe r1 []) = [r1, r2]
  simp only [List.orderedInsert]
  rw [if_neg (by simp only [dateLe, h]; exact Bool.false_ne_true)]

/-- C3 (amended, slack_agent side): whenever at least two valid rows remain
after filtering and the earlier of the two most recent closes parses to
exactly zero, slack_agent's fetch returns None — change_pct is never
computed in that case. -/
theorem C3_slack_zero_prev_close_fails (rows : List Row)
    (h2 : 2 ≤ (rows.filter SlackAgent.keepRow).length)
    (h0 : parseFloat ((prevRow (sortRows (rows.filter SlackAgent.keepRow))).close.getD "")
      = some 0) :
    SlackAgent.fetch_from_stooq (Except.ok rows) = none := by
  rw [fetch_ok_eq]
  unfold SlackAgent.quoteOfRows
  rw [if_neg (by omega)]
  unfold SlackAgent.lastTwoQuote
  rw [h0]
  cases hl : parseFloat ((latestRow (sortRows (rows.filter SlackAgent.keepRow))).close.getD "") with
  | none => rfl
  | some p => exact if_pos rfl

/-- Witness for C3's amended statement: a close written "00" survives the
filter, parses to zero and makes the fetch fail. -/
theorem C3_slack_zero_prev_close_fails_witness :
    2 ≤ (([⟨"2024-01-01", some "00"⟩, ⟨"2024-01-02", some "5"⟩] : List Row).filter
        SlackAgent.keepRow).length ∧
    parseFloat ((prevRow (sortRows (([⟨"2024-01-01", some "00"⟩, ⟨"2024-01-02", some "5"⟩] :
        List Row).filter SlackAgent.keepRow))).close.getD "") = some 0 ∧
    SlackAgent.fetch_from_stooq
      (Except.ok [⟨"2024-01-01", some "00"⟩, ⟨"2024-01-02", some "5"⟩]) = none :=
  ⟨by decide, by decide, C3_slack_zero_prev_close_fails _ (by decide) (by decide)⟩

/-- C3 counterexample (agent_app side): on a series whose earlier close is
"0", agent_app's fetch does not fail — it returns a quote whose change_pct
has been computed as 0. -/
theorem C3_counterexample_agent_zero_prev_close :
    AgentApp.fetch_from_stooq
        (Except.ok [⟨"2024-01-01", some "0"⟩, ⟨"2024-01-02", some "5"⟩])
      = .ok (some ⟨5, 5, 0, "2024-01-02"⟩) := by
  have h : AgentApp.fetch_from_stooq
      (Except.ok [⟨"2024-01-01", some "0"⟩, ⟨"2024-01-02", some "5"⟩])
      = .ok (some ⟨((5 : ℕ) : ℚ), ((5 : ℕ) : ℚ) - ((0 : ℕ) : ℚ), 0, "2024-01-02"⟩) := rfl
  rw [h]
  simp only [Except.ok.injEq, Option.some.injEq, AgentApp.QuoteA.mk.injEq]
  norm_num

/-- C4 (amended, slack_agent side): fewer than two valid rows after
filtering, or an unparseable latest or previous close, makes slack_agent's
fetch return None immediately — no exception. -/
theorem C4_slack_malformed_immediate_failure (rows : List Row) :
    ((rows.filter SlackAgent.keepRow).length < 2 →
      SlackAgent.fetch_from_stooq (Except.ok rows) = none) ∧
    ((parseFloat ((latestRow (sortRows (rows.filter SlackAgent.keepRow))).close.getD "") = none ∨
      parseFloat ((prevRow (sortRows (rows.filter SlackAgent.keepRow))).close.getD "") = none) →
      SlackAgent.fetch_from_stooq (Except.ok rows) = none) := by
  constructor
  · intro hlt
    rw [fetch_ok_eq]
    unfold SlackAgent.quoteOfRows
    rw [if_pos hlt]
  · intro hpar
    rw [fetch_ok_eq]
    unfold SlackAgent.quoteOfRows
    by_cases hlt : (rows.filter SlackAgent.keepRow).length < 2
    · rw [if_pos hlt]
    · rw [if_neg hlt]
      unfold SlackAgent.lastTwoQuote
      rcases hpar with h | h
      · rw [h]
      · rw [h]
        cases hl : parseFloat ((latestRow (sortRows (rows.filter SlackAgent.keepRow))).close.getD "") <;> rfl

/-- Witness for C4's amended statement: a one-valid-row body, and a two-row
body with non-numeric closes, both make the fetch return None. -/
theorem C4_slack_malformed_immediate_failure_witness :
    (([⟨"2024-01-01", some "100"⟩] : List Row).filter SlackAgent.keepRow).length < 2 ∧
    SlackAgent.fetch_from_stooq (Except.ok [(⟨"2024-01-01", some "100"⟩ : Row)]) = none ∧
    parseFloat ((latestRow (sortRows (([⟨"2024-01-01", some "abc"⟩, ⟨"2024-01-02", some "xyz"⟩] :
        List Row).filter SlackAgent.keepRow))).close.getD "") = none ∧
    SlackAgent.fetch_from_stooq
      (Except.ok [⟨"2024-01-01", some "abc"⟩, ⟨"2024-01-02", some "xyz"⟩]) = none :=
  ⟨by decide, (C4_slack_malformed_immediate_failure _).1 (by decide), by decide,
    (C4_slack_malformed_immediate_failure _).2 (Or.inl (by decide))⟩

/-- C4 counterexample (agent_app side): on a body with two rows whose closes
are not numeric, agent_app's fetch raises an uncaught ValueError instead of
returning a Failure. -/
theorem C4_counterexample_agent_nonnumeric_raises :
    AgentApp.fetch_from_stooq
        (Except.ok [⟨"2024-01-01", some "abc"⟩, ⟨"2024-01-02", some "xyz"⟩])
      = .error .valueError := rfl

/-- C5: slack_agent's fetch sorts rows by Date before taking the last two,
so a strictly date-descending two-row series gives the same result as its
sorted permutation; on the concrete series (2024-01-01, 100), (2024-01-02,
110) given unsorted, the result is price 110, previous close 100, change 10,
change_pct 10.  agent_app's fetch computes the same values on that series. -/
theorem C5_sort_before_diff :
    (∀ r1 r2 : Row, strLe r2.date r1.date = false →
      SlackAgent.fetch_from_stooq (Except.ok [r2, r1]) =
        SlackAgent.fetch_from_stooq (Except.ok [r1, r2])) ∧
    SlackAgent.fetch_from_stooq
        (Except.ok [⟨"2024-01-02", some "110"⟩, ⟨"2024-01-01", some "100"⟩])
      = some ⟨110, 100, 10, 10⟩ ∧
    AgentApp.fetch_from_stooq
        (Except.ok [⟨"2024-01-02", some "110"⟩, ⟨"2024-01-01", some "100"⟩])
      = .ok (some ⟨110, 10, 10, "2024-01-02"⟩) := by
  refine ⟨?_, ?_, ?_⟩
  · intro r1 r2 h
    have hle : strLe r1.date r2.date = true := by
      rcases strLe_total r2.date r1.date with h2 | h2
      · rw [h] at h2; cases h2
      · exact h2
    rw [fetch_ok_eq, fetch_ok_eq]
    cases k1 : SlackAgent.keepRow r1 <;> cases k2 : SlackAgent.keepRow r2 <;>
      simp only [List.filter_cons, List.filter_nil, k1, k2, if_true, if_false,
        Bool.false_eq_true, ite_true, ite_false]
    unfold SlackAgent.quoteOfRows
    rw [sortRows_pair_swap r1 r2 h, sortRows_pair r1 r2 hle]
    simp
  · have h : SlackAgent.fetch_from_stooq
        (Except.ok [⟨"2024-01-02", some "110"⟩, ⟨"2024-01-01", some "100"⟩])
        = some ⟨((110 : ℕ) : ℚ), ((100 : ℕ) : ℚ), ((110 : ℕ) : ℚ) - ((100 : ℕ) : ℚ),
            (((110 : ℕ) : ℚ) - ((100 : ℕ) : ℚ)) / ((100 : ℕ) : ℚ) * 100⟩ := rfl
    rw [h]
    simp only [Option.some.injEq, SlackAgent.Quote.mk.injEq]
    norm_num
  · have h : AgentApp.fetch_from_stooq
        (Except.ok [⟨"2024-01-02", some "110"⟩, ⟨"2024-01-01", some "100"⟩])
        = .ok (some ⟨((110 : ℕ) : ℚ), ((110 : ℕ) : ℚ) - ((100 : ℕ) : ℚ),
            (((110 : ℕ) : ℚ) - ((100 : ℕ) : ℚ)) / ((100 : ℕ) : ℚ) * 100, "2024-01-02"⟩) := rfl
    rw [h]
    simp only [Except.ok.injEq, Option.some.injEq, AgentApp.QuoteA.mk.injEq]
    norm_num

/-- Witness for C5's sort-invariance hypothesis at the concrete unsorted
series of the claim. -/
theorem C5_sort_before_diff_witness :
    strLe (Row.mk "2024-01-01" (some "100")).date (Row.mk "2024-01-02" (some "110")).date ≠ false ∧
    strLe (Row.mk "2024-01-02" (some "110")).date (Row.mk "2024-01-01" (some "100")).date = false ∧
    SlackAgent.fetch_from_stooq
        (Except.ok [⟨"2024-01-02", some "110"⟩, ⟨"2024-01-01", some "100"⟩]) =
      SlackAgent.fetch_from_stooq
        (Except.ok [⟨"2024-01-01", some "100"⟩, ⟨"2024-01-02", some "110"⟩]) :=
  ⟨by decide, by decide,
    C5_sort_before_diff.1 ⟨"2024-01-01", some "100"⟩ ⟨"2024-01-02", some "110"⟩ (by decide)⟩

/-- Witness for C2's amended statement at a concrete failing behaviour. -/
theorem C2_single_attempt_transport_failure_witness :
    (fun _ : Nat => (Except.error "boom" : Except String (List Row))) 0 = .error "boom" ∧
    (fetch_attempts (fun _ => Except.error "boom") = none ∧
      AgentApp.fetch_from_stooq
        ((fun _ : Nat => (Except.error "boom" : Except String (List Row))) 0) =
        .error (.httpError "boom")) :=
  ⟨rfl, C2_single_attempt_transport_failure _ "boom" rfl⟩

/-- Length of a joined non-empty line list is at least the length of its
first line. -/
lemma le_length_joinWith (sep a : String) (l : List String) :
    a.length ≤ (joinWith sep (a :: l)).length := by
  cases l with
  | nil => simp [joinWith]
  | cons b t =>
      show a.length ≤ (a ++ sep ++ joinWith sep (b :: t)).length
      rw [String.length_append, String.length_append]
      omega

/-- A non-empty gold group renders as a non-empty section string. -/
lemma build_gold_section_ne_empty (respOf : String → Except String (List Row))
    (g : String × String) (gs : List (String × String)) :
    SlackAgent.build_gold_section respOf (g :: gs) ≠ "" := by
  unfold SlackAgent.build_gold_section
  rw [if_neg (by simp : ¬((g :: gs).isEmpty = true))]
  intro hcontra
  have hle := le_length_joinWith "\n" "■ 金価格など" ((g :: gs).map (SlackAgent.quoteLine respOf))
  rw [hcontra] at hle
  have hpos : 0 < ("■ 金価格など" : String).length := by decide
  have h0 : ("" : String).length = 0 := by decide
  omega

/-- C6: the gainers list is the 3-prefix of the change_pct-descending sort,
hence non-increasing; the losers list is the last three of that sort
re-sorted ascending, hence non-decreasing; both have length at most 3 and at
most the number of successes; and with at most 3 successes the two lists
carry the same entries (no deduplication). -/
theorem C6_rankings_sorted_bounded (res : List SlackAgent.StockEntry) (hne : res ≠ []) :
    List.Sorted SlackAgent.pctDesc (SlackAgent.gainers res) ∧
    List.Sorted SlackAgent.pctAsc (SlackAgent.losers res) ∧
    (SlackAgent.gainers res).length ≤ 3 ∧
    (SlackAgent.gainers res).length ≤ res.length ∧
    (SlackAgent.losers res).length ≤ 3 ∧
    (SlackAgent.losers res).length ≤ res.length ∧
    (res.length ≤ 3 → (SlackAgent.losers res).Perm (SlackAgent.gainers res)) := by
  have hsorted : List.Sorted SlackAgent.pctDesc (SlackAgent.sorted_by res) :=
    List.sorted_insertionSort SlackAgent.pctDesc res
  have hlen : (SlackAgent.sorted_by res).length = res.length :=
    (List.perm_insertionSort SlackAgent.pctDesc res).length_eq
  have hloslen : (SlackAgent.losers res).length =
      (SlackAgent.sorted_by res).length - ((SlackAgent.sorted_by res).length - 3) := by
    unfold SlackAgent.losers
    rw [(List.perm_insertionSort SlackAgent.pctAsc _).length_eq, List.length_drop]
  refine ⟨?_, ?_, ?_, ?_, ?_, ?_, ?_⟩
  · exact List.Pairwise.sublist (List.take_sublist 3 _) hsorted
  · exact List.sorted_insertionSort SlackAgent.pctAsc _
  · unfold SlackAgent.gainers
    rw [List.length_take]
    exact min_le_left _ _
  · unfold SlackAgent.gainers
    rw [List.length_take, hlen]
    exact min_le_right _ _
  · omega
  · omega
  · intro h3
    unfold SlackAgent.losers SlackAgent.gainers
    have hz : (SlackAgent.sorted_by res).length - 3 = 0 := by omega
    rw [hz, List.drop_zero, List.take_of_length_le (by omega)]
    exact List.perm_insertionSort SlackAgent.pctAsc _

/-- Witness for C6 at the three concrete entries. -/
theorem C6_rankings_sorted_bounded_witness :
    sampleEntries ≠ [] ∧
    (List.Sorted SlackAgent.pctDesc (SlackAgent.gainers sampleEntries) ∧
      List.Sorted SlackAgent.pctAsc (SlackAgent.losers sampleEntries) ∧
      (SlackAgent.gainers sampleEntries).length ≤ 3 ∧
      (SlackAgent.gainers sampleEntries).length ≤ sampleEntries.length ∧
      (SlackAgent.losers sampleEntries).length ≤ 3 ∧
      (SlackAgent.losers sampleEntries).length ≤ sampleEntries.length ∧
      (sampleEntries.length ≤ 3 →
        (SlackAgent.losers sampleEntries).Perm (SlackAgent.gainers sampleEntries))) :=
  ⟨by decide, C6_rankings_sorted_bounded sampleEntries (by decide)⟩

/-- C1 (amended, slack_agent side): a symbol of the Index group whose fetch
yields no quote renders as its data-unavailable line in the index section's
line list; a symbol of the Other (gold) group whose fetch yields no quote
renders as its data-unavailable line in the gold section's line list, the
gold section being the join of precisely those lines under its header; and
the assembled snapshot text is always a non-empty string — no per-symbol
failure aborts the run. -/
theorem C1_slack_failure_renders_unavailable
    (respOf : String → Except String (List Row)) :
    (∀ (idx : List (String × String)) (sym label : String), (sym, label) ∈ idx →
      SlackAgent.fetch_from_stooq (respOf sym) = none →
      ("- " ++ label ++ ": データ取得失敗") ∈ SlackAgent.index_lines respOf idx) ∧
    (∀ (golds : List (String × String)) (gsym glabel : String), (gsym, glabel) ∈ golds →
      SlackAgent.fetch_from_stooq (respOf gsym) = none →
      ("- " ++ glabel ++ ": データ取得失敗") ∈ golds.map (SlackAgent.quoteLine respOf) ∧
      SlackAgent.build_gold_section respOf golds =
        joinWith "\n" ("■ 金価格など" :: golds.map (SlackAgent.quoteLine respOf))) ∧
    ∀ nowUtc (idx stocks golds : List (String × String)),
      SlackAgent.build_market_snapshot_text nowUtc respOf idx stocks golds ≠ "" := by
  refine ⟨?_, ?_, ?_⟩
  · intro idx sym label hmem hfail
    unfold SlackAgent.index_lines
    refine List.mem_map.mpr ⟨(sym, label), hmem, ?_⟩
    show (match SlackAgent.fetch_from_stooq (respOf sym) with
      | some q => SlackAgent.successLine label q
      | none => SlackAgent.unavailableLine label) = "- " ++ label ++ ": データ取得失敗"
    rw [hfail]
    rfl
  · intro golds gsym glabel hgmem hgfail
    constructor
    · refine List.mem_map.mpr ⟨(gsym, glabel), hgmem, ?_⟩
      show (match SlackAgent.fetch_from_stooq (respOf gsym) with
        | some q => SlackAgent.successLine glabel q
        | none => SlackAgent.unavailableLine glabel) = "- " ++ glabel ++ ": データ取得失敗"
      rw [hgfail]
      rfl
    · cases golds with
      | nil => cases hgmem
      | cons g gs =>
          unfold SlackAgent.build_gold_section
          rw [if_neg (by simp : ¬((g :: gs).isEmpty = true))]
  · intro nowUtc idx stocks golds hcontra
    have hhead : ∃ rest, SlackAgent.snapshot_parts nowUtc respOf idx stocks golds
        = SlackAgent.snapshot_header nowUtc :: rest := by
      unfold SlackAgent.snapshot_parts
      by_cases hg : SlackAgent.build_gold_section respOf golds = ""
      · rw [if_pos hg]; exact ⟨_, rfl⟩
      · rw [if_neg hg]; exact ⟨_, rfl⟩
    obtain ⟨rest, hrest⟩ := hhead
    unfold SlackAgent.build_market_snapshot_text at hcontra
    rw [hrest] at hcontra
    have hle := le_length_joinWith "\n\n" (SlackAgent.snapshot_header nowUtc) rest
    rw [hcontra] at hle
    have hlen : 0 < (SlackAgent.snapshot_header nowUtc).length := by
      unfold SlackAgent.snapshot_header
      rw [String.length_append, String.length_append]
      have hpos : 0 < ("日本株マーケットスナップショット (JST " : String).length := by decide
      omega
    have h0 : ("" : String).length = 0 := by decide
    omega

/-- Witness for C1's amended statement: one index symbol and one gold symbol
with a failing transport, and a concrete snapshot invocation. -/
theorem C1_slack_failure_renders_unavailable_witness :
    ("^NKX", "日経平均") ∈ ([("^NKX", "日経平均")] : List (String × String)) ∧
    ("XAUUSD", "金(USD)") ∈ ([("XAUUSD", "金(USD)")] : List (String × String)) ∧
    SlackAgent.fetch_from_stooq
      ((fun _ : String => (Except.error "down" : Except String (List Row))) "^NKX") = none ∧
    (("- " ++ "日経平均" ++ ": データ取得失敗") ∈
      SlackAgent.index_lines (fun _ => Except.error "down") [("^NKX", "日経平均")]) ∧
    (("- " ++ "金(USD)" ++ ": データ取得失敗") ∈
        ([("XAUUSD", "金(USD)")] : List (String × String)).map
          (SlackAgent.quoteLine (fun _ => Except.error "down")) ∧
      SlackAgent.build_gold_section (fun _ => Except.error "down") [("XAUUSD", "金(USD)")] =
        joinWith "\n" ("■ 金価格など" :: ([("XAUUSD", "金(USD)")] : List (String × String)).map
          (SlackAgent.quoteLine (fun _ => Except.error "down")))) ∧
    SlackAgent.build_market_snapshot_text 0 (fun _ => Except.error "down")
      [("^NKX", "日経平均")] [("7203.JP", "トヨタ自動車")] [("XAUUSD", "金(USD)")] ≠ "" :=
  ⟨by decide, by decide, rfl,
    (C1_slack_failure_renders_unavailable (fun _ => Except.error "down")).1
      [("^NKX", "日経平均")] "^NKX" "日経平均" (by decide) rfl,
    (C1_slack_failure_renders_unavailable (fun _ => Except.error "down")).2.1
      [("XAUUSD", "金(USD)")] "XAUUSD" "金(USD)" (by decide) rfl,
    (C1_slack_failure_renders_unavailable (fun _ => Except.error "down")).2.2
      0 [("^NKX", "日経平均")] [("7203.JP", "トヨタ自動車")] [("XAUUSD", "金(USD)")]⟩

/-- C1 counterexample (agent_app side): with every fetch failing on
transport, agent_app's snapshot build does not complete — the exception
escapes and no snapshot text is produced. -/
theorem C1_counterexample_agent_snapshot_raises :
    AgentApp.build_market_snapshot_text 0 (fun _ => Except.error "timeout")
      AgentApp.INDEX_SYMBOLS AgentApp.STOCK_SYMBOLS AgentApp.GOLD_SYMBOLS
      = .error (.httpError "timeout") := rfl

/-- C9: slack_agent's snapshot text is the ordered parts — a single header
line whose timestamp is the current UTC instant plus 9 hours (a fixed
constant offset), the index header, the index section, the Tracked ranking
section, and, exactly when the gold group is non-empty, the gold section —
joined with a double line break; the timestamp is formatted
YYYY-MM-DD HH:MM:SS, as checked on a concrete instant. -/
theorem C9_snapshot_assembly (nowUtc : Nat)
    (respOf : String → Except String (List Row)) (idx stocks golds : List (String × String)) :
    SlackAgent.build_market_snapshot_text nowUtc respOf idx stocks golds =
      joinWith "\n\n"
        (["日本株マーケットスナップショット (JST " ++ format_jst (nowUtc + 9 * 3600) ++ ")",
          "■ 主要指数", SlackAgent.build_index_section respOf idx,
          SlackAgent.build_stock_rankings respOf stocks] ++
          (if golds.isEmpty then [] else [SlackAgent.build_gold_section respOf golds])) ∧
    format_jst 1704101700 = "2024-01-01 09:35:00" := by
  constructor
  · unfold SlackAgent.build_market_snapshot_text SlackAgent.snapshot_parts
      SlackAgent.snapshot_header
    cases golds with
    | nil =>
        rw [if_pos (show SlackAgent.build_gold_section respOf [] = "" from rfl)]
        simp
    | cons g gs =>
        rw [if_neg (build_gold_section_ne_empty respOf g gs)]
        simp
  · decide
